import Mathlib

/-
  Verification of tea.commander.ui (src/src/tea/commander/ui.py): a shallow
  embedding of StatusConsoleFormatter and ConsoleUserInterface, followed by
  theorems settling the specification claims.

  Modelling conventions:
  - A Python object passed as the report subject is represented by its string
    form (the result of str(obj)), since the module only ever renders it
    through a percent-s format; auxiliary data is an Option String.
  - Python object identity of formatter instances is modelled by a numeric
    object id (oid) drawn from a fresh counter threaded through the state.
  - The instance attribute dictionary of a ConsoleUserInterface is modelled
    explicitly as an association list, because two claims hinge on attribute
    level behaviour: the constructor rebinding the name report over the
    method, and the getter testing hasattr with the unmangled name while the
    assignments inside the class body store under the mangled name
    _ConsoleUserInterface__formatter.
  - Fallible operations (KeyError on a dict without default factory,
    AttributeError, calling a non callable) return Option, none meaning the
    Python call raises.
-/

namespace Tea

/-- Modelled from the spec: the Color enumeration of tea.console.color is not
part of the sources under verification; the spec describes colors as named
values, green for success and red for failure, with the printer accepting any
named color. -/
inductive Color where
  | red
  | green
  | blue
  deriving DecidableEq, Repr

/-- One record of the internal report log: the dict literal appended by
ConsoleUserInterface.report, with keys object, status, data. -/
structure ReportRecord where
  object : String
  status : Int
  data : Option String
  deriving DecidableEq, Repr

/-- Lookup in the explicit key part of a status to color table, mirroring
Python dict key lookup. -/
def lookupTable : List (Int × Color) → Int → Option Color
  | [], _ => none
  | (k, c) :: rest, status => if k = status then some c else lookupTable rest status

/-- The status_colors value held by a StatusConsoleFormatter: its explicit
entries plus, when it is a collections.defaultdict, the color produced by the
default factory; a plain dict has fallback none. -/
structure StatusColors where
  table : List (Int × Color)
  fallback : Option Color
  deriving DecidableEq, Repr

/-- Subscript access status_colors[status]: an explicit entry wins, otherwise
a defaultdict yields its factory value and a plain dict raises KeyError
(returned as none). -/
def StatusColors.lookup (sc : StatusColors) (status : Int) : Option Color :=
  match lookupTable sc.table status with
  | some c => some c
  | none => sc.fallback

/-- A StatusConsoleFormatter instance: its object id (modelling Python object
identity) and its status_colors attribute. -/
structure StatusConsoleFormatter where
  oid : Nat
  status_colors : StatusColors
  deriving DecidableEq, Repr

/-- Default construction StatusConsoleFormatter(): status_colors is a
defaultdict whose factory yields Color.red, with the single explicit entry
mapping 0 to Color.green. -/
def StatusConsoleFormatter.mkDefault (oid : Nat) : StatusConsoleFormatter :=
  { oid := oid
    status_colors := { table := [(0, Color.green)], fallback := some Color.red } }

/-- Invocation of a StatusConsoleFormatter: returns the singleton list
pairing the string form of obj suffixed with a newline with
status_colors[status]; none models the KeyError raised when the subscript
fails. The data argument is never read. -/
def StatusConsoleFormatter.call (f : StatusConsoleFormatter) (obj : String)
    (status : Int) (data : Option String) : Option (List (String × Color)) :=
  match StatusColors.lookup f.status_colors status with
  | some c => some [(obj ++ "\n", c)]
  | none => none

/-- A value stored in the instance attribute dictionary of a
ConsoleUserInterface: the report log list, a formatter object, or the
configuration object (kept opaque as a string tag). -/
inductive Value where
  | vlist : List ReportRecord → Value
  | vformatter : StatusConsoleFormatter → Value
  | vconfig : String → Value
  deriving DecidableEq, Repr

/-- Whether a stored value is callable in the Python sense: formatter objects
define a call method; lists and the configuration object do not. -/
def Value.isCallable : Value → Bool
  | .vformatter _ => true
  | .vlist _ => false
  | .vconfig _ => false

/-- The instance attribute dictionary, an association list from attribute
name to value. -/
abbrev Attrs := List (String × Value)

/-- Dictionary read: first binding for the key, none when absent. -/
def Attrs.get : Attrs → String → Option Value
  | [], _ => none
  | (k, v) :: rest, name => if k = name then some v else Attrs.get rest name

/-- Dictionary write: replace the binding when present, append otherwise. -/
def Attrs.set : Attrs → String → Value → Attrs
  | [], name, v => [(name, v)]
  | (k, w) :: rest, name, v =>
      if k = name then (name, v) :: rest else (k, w) :: Attrs.set rest name v

/-- A ConsoleUserInterface instance is its attribute dictionary. -/
structure ConsoleUserInterface where
  attrs : Attrs
  deriving DecidableEq, Repr

/-- The name under which the class body assignments to the double underscore
formatter attribute actually store, after Python name mangling. -/
def mangledFormatterName : String := "_ConsoleUserInterface__formatter"

/-- Constructor body of ConsoleUserInterface: stores the configuration under
the name config and binds the instance attribute report to a new empty list. -/
def ConsoleUserInterface.init (config : String) : ConsoleUserInterface :=
  { attrs := Attrs.set (Attrs.set [] "config" (Value.vconfig config))
      "report" (Value.vlist []) }

/-- Result of attribute access on a ConsoleUserInterface instance. -/
inductive AttrResult where
  | propFormatter
  | instanceVal : Value → AttrResult
  | classMethod : String → AttrResult
  | missing
  deriving DecidableEq, Repr

/-- Attribute resolution per the Python rules for this class: the formatter
property is a data descriptor on the class and takes precedence over the
instance dictionary; the instance dictionary takes precedence over the plain
functions of the class, which are non data descriptors. -/
def getattr (ui : ConsoleUserInterface) (name : String) : AttrResult :=
  if name = "formatter" then AttrResult.propFormatter
  else
    match Attrs.get ui.attrs name with
    | some v => AttrResult.instanceVal v
    | none =>
        if name = "ask" ∨ name = "error" ∨ name = "report" then
          AttrResult.classMethod name
        else AttrResult.missing

/-- Whether an attribute access result is callable. -/
def AttrResult.callable : AttrResult → Bool
  | .propFormatter => true
  | .instanceVal v => v.isCallable
  | .classMethod _ => true
  | .missing => false

/-- The formatter property getter. The guard hasattr tests the literal,
unmangled name given as a string, while both assignments in the class body
store under the mangled name; when the guard fails a fresh default formatter
is constructed with the next object id and stored under the mangled name.
The returned value is the mangled attribute after the guard ran; none models
the AttributeError raised when it is absent. -/
def ConsoleUserInterface.formatter_get (ui : ConsoleUserInterface) (fresh : Nat) :
    Option Value × ConsoleUserInterface × Nat :=
  if (Attrs.get ui.attrs "__formatter").isSome then
    (Attrs.get ui.attrs mangledFormatterName, ui, fresh)
  else
    let f := StatusConsoleFormatter.mkDefault fresh
    let ui1 : ConsoleUserInterface :=
      { attrs := Attrs.set ui.attrs mangledFormatterName (Value.vformatter f) }
    (Attrs.get ui1.attrs mangledFormatterName, ui1, fresh + 1)

/-- The formatter property setter: stores the value under the mangled name. -/
def ConsoleUserInterface.formatter_set (ui : ConsoleUserInterface) (v : Value) :
    ConsoleUserInterface :=
  { attrs := Attrs.set ui.attrs mangledFormatterName v }

/-- Observable outcome of one ask call: the prompt text handed to the reader,
whether the entered characters are echoed, and the returned text. -/
structure AskResult where
  prompt : String
  echoed : Bool
  result : String
  deriving DecidableEq, Repr

/-- Modelled from the spec: getpass.getpass is not part of the sources under
verification; per the spec it prints the prompt, reads a line without echoing
it, and returns the entered text unchanged. -/
def getpass (prompt entered : String) : AskResult :=
  { prompt := prompt, echoed := false, result := entered }

/-- Modelled from the spec: the builtin raw input is not part of the sources
under verification; per the spec it prints the prompt, reads a visible line,
and returns the entered text unchanged. -/
def raw_input (prompt entered : String) : AskResult :=
  { prompt := prompt, echoed := true, result := entered }

/-- Method body of ConsoleUserInterface.ask: message defaults to absent and is
replaced by the empty string when falsy; the password flag selects the hidden
reader, otherwise the plain line reader is used. The text the user will type
is passed in as entered. -/
def ConsoleUserInterface.ask (message : Option String := none)
    (password : Bool := false) (entered : String := "") : AskResult :=
  let m := match message with
    | none => ""
    | some s => if s = "" then "" else s
  if password then getpass m entered else raw_input m entered

/-- Method body of ConsoleUserInterface.error: calls the color printer on the
fixed string containing a percent-s placeholder and Color.red; the message
parameter does not occur in the body. The result is the list of text and
color pairs handed to the printer. -/
def ConsoleUserInterface.error (message : String) : List (String × Color) :=
  [("ERROR: %s\n", Color.red)]

/-- Outcome of a successful run of the report method body: the updated
instance, the advanced fresh counter, and the text and color pairs printed. -/
structure ReportResult where
  ui : ConsoleUserInterface
  fresh : Nat
  printed : List (String × Color)
  deriving DecidableEq, Repr

/-- Method body of ConsoleUserInterface.report as a function of the instance
(the path taken when the function is reached through the class): look up the
attribute report on the instance, append the record dict to it, read the
formatter property, invoke the formatter, and print each returned pair. The
parameters status and data carry the default values of the source. Any raised
error, including the attribute not holding a list, the property returning a
non callable or an absent value, and a KeyError inside the formatter, yields
none. -/
def ConsoleUserInterface.report_method (ui : ConsoleUserInterface) (fresh : Nat)
    (obj : String) (status : Int := 0) (data : Option String := none) :
    Option ReportResult :=
  match Attrs.get ui.attrs "report" with
  | some (Value.vlist log) =>
      let ui1 : ConsoleUserInterface :=
        { attrs := Attrs.set ui.attrs "report"
            (Value.vlist (log ++ [{ object := obj, status := status, data := data }])) }
      match ConsoleUserInterface.formatter_get ui1 fresh with
      | (some (Value.vformatter f), ui2, fresh2) =>
          match StatusConsoleFormatter.call f obj status data with
          | some lines => some { ui := ui2, fresh := fresh2, printed := lines }
          | none => none
      | _ => none
  | _ => none

end Tea

namespace Tea

/-- Reading a key just written returns the written value. -/
theorem Attrs.get_set_eq (a : Attrs) (k : String) (v : Value) :
    Attrs.get (Attrs.set a k v) k = some v := by
  induction a with
  | nil => simp [Attrs.set, Attrs.get]
  | cons p rest ih =>
      obtain ⟨k0, w⟩ := p
      by_cases hp : k0 = k
      · simp [Attrs.set, Attrs.get, hp]
      · simp [Attrs.set, Attrs.get, hp, ih]

/-- Writing one key leaves reads of a different key unchanged. -/
theorem Attrs.get_set_ne (a : Attrs) (k k' : String) (v : Value) (h : k' ≠ k) :
    Attrs.get (Attrs.set a k v) k' = Attrs.get a k' := by
  induction a with
  | nil => simp [Attrs.set, Attrs.get, Ne.symm h]
  | cons p rest ih =>
      obtain ⟨k0, w⟩ := p
      by_cases hp : k0 = k
      · subst hp
        simp [Attrs.set, Attrs.get, Ne.symm h]
      · by_cases hq : k0 = k'
        · subst hq
          simp [Attrs.set, Attrs.get, hp, h]
        · simp [Attrs.set, Attrs.get, hp, hq, ih]

end Tea

namespace Tea

/-- When the literal name tested by the hasattr guard is absent, which is the
case in every reachable state since nothing ever stores under it, the getter
builds a fresh default formatter with the next object id, stores it under the
mangled name, returns it, and advances the counter. -/
theorem formatter_get_spec (ui : ConsoleUserInterface) (fresh : Nat)
    (h : Attrs.get ui.attrs "__formatter" = none) :
    ConsoleUserInterface.formatter_get ui fresh
      = (some (Value.vformatter (StatusConsoleFormatter.mkDefault fresh)),
         { attrs := Attrs.set ui.attrs mangledFormatterName
             (Value.vformatter (StatusConsoleFormatter.mkDefault fresh)) },
         fresh + 1) := by
  simp [ConsoleUserInterface.formatter_get, h, Attrs.get_set_eq]

/-- Claim C1: the specification says each report call appends one record
holding the arguments of that call to the internal log and then renders it
through the formatter. On a freshly constructed instance the name report
instead resolves to the empty log list that the constructor bound over the
method, and that list is not callable, so the call raises a TypeError before
any record is stored or printed. This theorem evaluates the code at the
failing input. -/
theorem report_call_on_instance_fails :
    getattr (ConsoleUserInterface.init "cfg") "report"
      = AttrResult.instanceVal (Value.vlist [])
    ∧ AttrResult.callable (getattr (ConsoleUserInterface.init "cfg") "report") = false :=
  ⟨rfl, rfl⟩

/-- Claim C2: the specification says error writes the literal message in the
failure color. The body instead hands the fixed text ERROR with an unapplied
percent-s placeholder to the printer for every message, so the output is
independent of the message and never contains it. -/
theorem error_prints_fixed_string (message : String) :
    ConsoleUserInterface.error message = [("ERROR: %s\n", Color.red)]
    ∧ ConsoleUserInterface.error message = ConsoleUserInterface.error "disk full" :=
  ⟨rfl, rfl⟩

/-- Claim C3: the specification says that after the setter stores a formatter
the getter returns that same instance. Because the hasattr guard tests the
unmangled name while the setter stored under the mangled one, the getter at
the concrete input below returns a newly built default formatter instead of
the stored one. -/
theorem formatter_set_then_get_returns_fresh_default :
    (ConsoleUserInterface.formatter_get
        (ConsoleUserInterface.formatter_set (ConsoleUserInterface.init "cfg")
          (Value.vformatter { oid := 5, status_colors := { table := [], fallback := none } })) 0).1
      = some (Value.vformatter (StatusConsoleFormatter.mkDefault 0))
    ∧ (ConsoleUserInterface.formatter_get
        (ConsoleUserInterface.formatter_set (ConsoleUserInterface.init "cfg")
          (Value.vformatter { oid := 5, status_colors := { table := [], fallback := none } })) 0).1
      ≠ some (Value.vformatter { oid := 5, status_colors := { table := [], fallback := none } }) :=
  ⟨rfl, by decide⟩

/-- Claim C4: construction binds the instance attribute named report to the
empty log list, so on the instance that name denotes the list rather than the
report method, and the resolved attribute is not callable. -/
theorem init_binds_report_to_list (config : String) :
    getattr (ConsoleUserInterface.init config) "report"
      = AttrResult.instanceVal (Value.vlist [])
    ∧ AttrResult.callable (getattr (ConsoleUserInterface.init config) "report") = false :=
  ⟨rfl, rfl⟩

/-- Claim C5: a default constructed StatusConsoleFormatter applied to any
object, any integer status and absent data returns exactly one pair whose
text is the string form of the object followed by a newline and whose color
is green for status zero and red for every other status. -/
theorem default_formatter_output (oid : Nat) (obj : String) (status : Int) :
    StatusConsoleFormatter.call (StatusConsoleFormatter.mkDefault oid) obj status none
      = some [(obj ++ "\n", if status = 0 then Color.green else Color.red)] := by
  rcases eq_or_ne status 0 with h | h
  · subst h
    rfl
  · simp [StatusConsoleFormatter.call, StatusConsoleFormatter.mkDefault,
      StatusColors.lookup, lookupTable, h, Ne.symm h]

/-- Claim C6, counterexample: the claim as stated fails, because construction
accepts any explicit mapping and subscripting passes through it, so a plain
dict without a default factory raises KeyError on a status it does not
contain; here a formatter built from a mapping holding only status five fails
to resolve status zero. -/
theorem explicit_mapping_lookup_raises :
    StatusConsoleFormatter.call
        { oid := 7, status_colors := { table := [(5, Color.blue)], fallback := none } }
        "x" 0 none = none :=
  rfl

/-- Claim C6, amended: whenever the status color mapping of a formatter
provides a fallback color, as the default construction does, resolving any
integer status succeeds, and a status with no explicit entry resolves to that
fallback color. -/
theorem lookup_with_fallback_succeeds (sc : StatusColors) (c : Color) (status : Int)
    (h : sc.fallback = some c) :
    (StatusColors.lookup sc status).isSome = true
    ∧ (lookupTable sc.table status = none → StatusColors.lookup sc status = some c) := by
  cases htab : lookupTable sc.table status with
  | none => simp [StatusColors.lookup, htab, h]
  | some c0 => simp [StatusColors.lookup, htab]

/-- Witness for the amended claim C6 at a concrete mapping with fallback red
and explicit entry only for status zero, resolved at status seven. -/
theorem lookup_with_fallback_succeeds_witness :
    ({ table := [(0, Color.green)], fallback := some Color.red } : StatusColors).fallback
        = some Color.red
    ∧ ((StatusColors.lookup { table := [(0, Color.green)], fallback := some Color.red } 7).isSome
        = true
      ∧ (lookupTable ({ table := [(0, Color.green)], fallback := some Color.red } : StatusColors).table 7
            = none →
          StatusColors.lookup { table := [(0, Color.green)], fallback := some Color.red } 7
            = some Color.red)) :=
  ⟨rfl, lookup_with_fallback_succeeds _ Color.red 7 rfl⟩

/-- Claim C7: in any state where the literal unmangled attribute is absent,
which holds in every reachable state, every read of the formatter property
returns a newly constructed default formatter carrying the next object id and
advances the counter; two consecutive reads return distinct objects, and a
read performed right after the setter stored a value still returns a fresh
default rather than the stored value. -/
theorem formatter_get_always_fresh (ui : ConsoleUserInterface) (fresh : Nat)
    (g : Value) (h : Attrs.get ui.attrs "__formatter" = none) :
    (ConsoleUserInterface.formatter_get ui fresh).1
        = some (Value.vformatter (StatusConsoleFormatter.mkDefault fresh))
    ∧ (ConsoleUserInterface.formatter_get ui fresh).2.2 = fresh + 1
    ∧ (ConsoleUserInterface.formatter_get
          (ConsoleUserInterface.formatter_get ui fresh).2.1 (fresh + 1)).1
        = some (Value.vformatter (StatusConsoleFormatter.mkDefault (fresh + 1)))
    ∧ StatusConsoleFormatter.mkDefault fresh ≠ StatusConsoleFormatter.mkDefault (fresh + 1)
    ∧ (ConsoleUserInterface.formatter_get (ConsoleUserInterface.formatter_set ui g) fresh).1
        = some (Value.vformatter (StatusConsoleFormatter.mkDefault fresh)) := by
  have hne : ("__formatter" : String) ≠ mangledFormatterName := by decide
  have h1 := formatter_get_spec ui fresh h
  have hpre : Attrs.get (Attrs.set ui.attrs mangledFormatterName
      (Value.vformatter (StatusConsoleFormatter.mkDefault fresh))) "__formatter" = none := by
    rw [Attrs.get_set_ne _ _ _ _ hne]
    exact h
  have h2 := formatter_get_spec
    { attrs := Attrs.set ui.attrs mangledFormatterName
        (Value.vformatter (StatusConsoleFormatter.mkDefault fresh)) } (fresh + 1) hpre
  have hset : Attrs.get (ConsoleUserInterface.formatter_set ui g).attrs "__formatter" = none := by
    simp [ConsoleUserInterface.formatter_set]
    rw [Attrs.get_set_ne _ _ _ _ hne]
    exact h
  have h3 := formatter_get_spec (ConsoleUserInterface.formatter_set ui g) fresh hset
  refine ⟨by rw [h1], by rw [h1], ?_, ?_, by rw [h3]⟩
  · rw [h1]
    simpa using congrArg Prod.fst h2
  · intro hEq
    have hoid : fresh = fresh + 1 := congrArg StatusConsoleFormatter.oid hEq
    omega

/-- Witness for claim C7 on a freshly constructed instance with counter zero
and a stored formatter with object id ninety nine. -/
theorem formatter_get_always_fresh_witness :
    Attrs.get (ConsoleUserInterface.init "cfg").attrs "__formatter" = none
    ∧ ((ConsoleUserInterface.formatter_get (ConsoleUserInterface.init "cfg") 0).1
        = some (Value.vformatter (StatusConsoleFormatter.mkDefault 0))
      ∧ (ConsoleUserInterface.formatter_get (ConsoleUserInterface.init "cfg") 0).2.2 = 0 + 1
      ∧ (ConsoleUserInterface.formatter_get
            (ConsoleUserInterface.formatter_get (ConsoleUserInterface.init "cfg") 0).2.1 (0 + 1)).1
          = some (Value.vformatter (StatusConsoleFormatter.mkDefault (0 + 1)))
      ∧ StatusConsoleFormatter.mkDefault 0 ≠ StatusConsoleFormatter.mkDefault (0 + 1)
      ∧ (ConsoleUserInterface.formatter_get
            (ConsoleUserInterface.formatter_set (ConsoleUserInterface.init "cfg")
              (Value.vformatter (StatusConsoleFormatter.mkDefault 99))) 0).1
          = some (Value.vformatter (StatusConsoleFormatter.mkDefault 0))) :=
  ⟨rfl, formatter_get_always_fresh (ConsoleUserInterface.init "cfg") 0
      (Value.vformatter (StatusConsoleFormatter.mkDefault 99)) rfl⟩

/-- Claim C8: invoking the report method body with status and data omitted is
the same invocation as passing status zero and data absent explicitly, since
those are the default parameter values of the source; at a concrete fresh
instance the invocation with omitted arguments stores exactly the record with
status zero and absent data and prints one green line. -/
theorem report_method_defaults (ui : ConsoleUserInterface) (fresh : Nat) (obj : String) :
    ConsoleUserInterface.report_method ui fresh obj
      = ConsoleUserInterface.report_method ui fresh obj 0 none
    ∧ ConsoleUserInterface.report_method (ConsoleUserInterface.init "cfg") 0 "build"
      = some { ui := { attrs := [("config", Value.vconfig "cfg"),
                 ("report", Value.vlist [{ object := "build", status := 0, data := none }]),
                 (mangledFormatterName, Value.vformatter (StatusConsoleFormatter.mkDefault 0))] },
               fresh := 1,
               printed := [("build\n", Color.green)] } :=
  ⟨rfl, by decide⟩

/-- Claim C9: in ask, an absent message is replaced by the empty prompt, a
true password flag routes the read through the hidden non echoing reader
while a false flag uses the plain visible reader, and in every case the
entered text is returned unchanged. -/
theorem ask_behavior (message : Option String) (password : Bool) (entered : String) :
    (ConsoleUserInterface.ask none password entered).prompt = ""
    ∧ (ConsoleUserInterface.ask message true entered).echoed = false
    ∧ (ConsoleUserInterface.ask message false entered).echoed = true
    ∧ (ConsoleUserInterface.ask message password entered).result = entered := by
  obtain _ | m := message <;> cases password <;>
    simp [ConsoleUserInterface.ask, getpass, raw_input]

/-- Claim C10: the default constructed formatter produces identical output
for any two data values at the same object and status, since its body never
reads the data argument. -/
theorem default_formatter_ignores_data (oid : Nat) (obj : String) (status : Int)
    (d1 d2 : Option String) :
    StatusConsoleFormatter.call (StatusConsoleFormatter.mkDefault oid) obj status d1
      = StatusConsoleFormatter.call (StatusConsoleFormatter.mkDefault oid) obj status d2 :=
  rfl

end Tea
